import Mathlib

/-!
Shallow embedding of the crawler-assistant core (selector scoring /
optimization / validation, the crawl traversal loop, record quality
gating, extraction, and the anti-detection policy), together with
theorems settling the specification claims.

Source files embedded:
- `app/core/ai/page_analyzer.py`   (`PageAnalyzer.validate_selectors`)
- `app/core/ai/selector_generator.py`
- `app/core/browser/browser_controller.py` (`BrowserController.crawl_jobs`)
- `app/core/browser/crawler_agent.py` (`CrawlerAgent.extract_jobs`)
- `app/core/browser/anti_detection.py` (`AntiDetectionManager`)
- `app/models/job.py` (`Job.calculate_quality_score`)
- `app/services/crawling_service.py` (`CrawlingService.save_crawl_results`)
-/

namespace CrawlerAssistant

/-! ## Document model

A parsed document (BeautifulSoup tree) is modelled as a flat list of
elements with parent pointers.  A CSS selector in the fragment the code
manipulates is a whitespace-separated list of compound parts
(descendant combinator); each part can constrain tag, id, classes and
`[attr*="value"]` substring conditions. -/

/-- One element of a parsed document. `parent` is an index into the
document's element list (`none` for a root). -/
structure Elem where
  tag : String
  id : Option String := none
  classes : List String := []
  attrs : List (String × String) := []
  parent : Option Nat := none
deriving Repr, DecidableEq

/-- A parsed document: elements in document order. -/
abbrev Doc := List Elem

/-- One compound part of a CSS selector (e.g. `div#main.a.b[href*="x"]`). -/
structure Part where
  tag : Option String := none
  id : Option String := none
  classes : List String := []
  attrContains : List (String × String) := []
deriving Repr, DecidableEq

/-- Substring test (Python `in` on strings). -/
def strContains (hay needle : String) : Bool :=
  hay.toList.tails.any (fun t => needle.toList.isPrefixOf t)

/-- The value of an attribute of an element; the `class` attribute is the
space-joined class list (as in HTML). -/
def attrValue (e : Elem) (a : String) : Option String :=
  if a = "class" then
    if e.classes.isEmpty then none else some (String.intercalate " " e.classes)
  else
    e.attrs.lookup a

/-- Whether an element satisfies one compound selector part. -/
def matchesPart (e : Elem) (p : Part) : Bool :=
  (match p.tag with | none => true | some t => e.tag = t) &&
  (match p.id with | none => true | some i => e.id = some i) &&
  p.classes.all (fun c => e.classes.contains c) &&
  p.attrContains.all (fun ac =>
    match attrValue e ac.1 with
    | none => false
    | some v => strContains v ac.2)

/-- The chain of ancestor indices of element `i` (nearest first),
with fuel bounding the walk. -/
def ancChain (doc : Doc) : Nat → Nat → List Nat
  | 0, _ => []
  | fuel + 1, i =>
    match (List.get? doc i).bind Elem.parent with
    | some j => j :: ancChain doc fuel j
    | none => []

/-- The ancestor elements of element `i`, nearest first. -/
def ancestorElems (doc : Doc) (i : Nat) : List Elem :=
  (ancChain doc (List.length doc) i).filterMap (List.get? doc)

/-- Match a reversed list of selector parts against an ancestor chain
(descendant combinator semantics): each part must be satisfied by some
strictly higher ancestor than the previous one. -/
def matchUp (revParts : List Part) (ancs : List Elem) : Bool :=
  match revParts, ancs with
  | [], _ => true
  | _ :: _, [] => false
  | p :: ps, a :: rest =>
    (matchesPart a p && matchUp ps rest) || matchUp (p :: ps) rest

/-- Whether the element at index `i` is selected by the selector. -/
def selectsAt (doc : Doc) (parts : List Part) (i : Nat) : Bool :=
  match List.get? doc i with
  | none => false
  | some e =>
    match parts.reverse with
    | [] => false
    | pLast :: revRest =>
      matchesPart e pLast && matchUp revRest (ancestorElems doc i)

/-- `soup.select`: the indices of all elements matched by the selector,
in document order. -/
def select (doc : Doc) (parts : List Part) : List Nat :=
  (List.range (List.length doc)).filter (selectsAt doc parts)

/-- A locator string as handed to `soup.select`: either it parses into
compound parts or its evaluation raises a syntax error. -/
inductive Locator where
  | parts (ps : List Part)
  | invalid (msg : String)
deriving Repr, DecidableEq

/-- Evaluating a locator against a document (`soup.select(selector)`);
an invalid locator raises. -/
def selectLoc (doc : Doc) : Locator → Except String (List Nat)
  | .parts ps => .ok (select doc ps)
  | .invalid msg => .error msg

/-! ## `PageAnalyzer.validate_selectors` (`app/core/ai/page_analyzer.py`) -/

/-- One entry of `validation_result["selector_results"]`. -/
structure SelResult where
  valid : Bool
  count : Nat
  note : String
deriving Repr, DecidableEq

/-- The result dictionary of `validate_selectors`. -/
structure ValidationResult where
  overallScore : ℚ
  selectorResults : List (String × SelResult)
  suggestions : List String
deriving Repr, DecidableEq

/-- The per-selector body of the `validate_selectors` loop: a successful
evaluation records the match count, an exception is caught and recorded
as invalid with count 0 and an error note. -/
def validateEntry (doc : Doc) (kv : String × Locator) : String × SelResult :=
  match selectLoc doc kv.2 with
  | .ok es =>
      (kv.1, { valid := decide (0 < es.length), count := es.length,
               note := if 0 < es.length then "found elements" else "no elements found" })
  | .error m =>
      (kv.1, { valid := false, count := 0, note := "selector error: " ++ m })

/-- `PageAnalyzer.validate_selectors`: evaluates every selector,
counts the valid ones, and sets
`overall_score = valid_selectors / total_selectors` (0.0 when the
selector set is empty). -/
def validateSelectors (sels : List (String × Locator)) (doc : Doc) : ValidationResult :=
  let results := sels.map (validateEntry doc)
  let validCount := results.countP (fun r => r.2.valid)
  let total := sels.length
  let overall : ℚ := if 0 < total then (validCount : ℚ) / (total : ℚ) else 0
  let suggestions := results.filterMap (fun r =>
    if !r.2.valid then some (r.1 ++ " selector invalid")
    else if r.2.count = 0 then some (r.1 ++ " selector found nothing")
    else none)
  { overallScore := overall, selectorResults := results, suggestions := suggestions }

/-- Spec-side predicate: the role's locator matches at least one element
(a raising locator matches nothing). -/
def roleMatches (doc : Doc) (kv : String × Locator) : Bool :=
  match selectLoc doc kv.2 with
  | .ok es => decide (0 < es.length)
  | .error _ => false

/-! ## `SelectorGenerator` (`app/core/ai/selector_generator.py`) -/

/-- Characters matched by the regex class `[\w-]`. -/
def isWordDash (c : Char) : Bool := c.isAlphanum || c = '_' || c = '-'

/-- Characters matched by the regex class `\w`. -/
def isWordChar (c : Char) : Bool := c.isAlphanum || c = '_'

/-- Number of non-overlapping matches of `mark[\w-]+` in the text
(used for the `#[\w-]+` and `\.[\w-]+` counts of
`_calculate_specificity`): since the mark characters `#` and `.` are not
`[\w-]` characters, each match begins exactly at a mark directly
followed by a `[\w-]` character. -/
def countMarked (mark : Char) : List Char → Nat
  | [] => 0
  | [_] => 0
  | c :: d :: rest =>
    (if c = mark && isWordDash d then 1 else 0) + countMarked mark (d :: rest)

/-- Scanner for matches of `\b[a-zA-Z]+\b`: maximal alphabetic runs whose
neighbours on both sides are not word characters.  `st` is `none`
outside a run and `some ok` inside a run whose left boundary was a word
boundary; `prevIsWord` records whether the previous character is a word
character. -/
def countAlphaGo (st : Option Bool) (prevIsWord : Bool) : List Char → Nat
  | [] => match st with | some true => 1 | _ => 0
  | c :: rest =>
    if c.isAlpha then
      match st with
      | some ok => countAlphaGo (some ok) true rest
      | none => countAlphaGo (some (!prevIsWord)) true rest
    else
      (match st with
       | some true => if isWordChar c then 0 else 1
       | _ => 0) + countAlphaGo none (isWordChar c) rest

/-- Number of matches of `\b[a-zA-Z]+\b` in the text. -/
def countAlphaRuns (l : List Char) : Nat :=
  countAlphaGo none false l

/-- Rendering of a compound part back to its selector-string form. -/
def partStr (p : Part) : String :=
  (match p.tag with | none => "" | some t => t) ++
  (match p.id with | none => "" | some i => "#" ++ i) ++
  String.join (p.classes.map (fun c => "." ++ c)) ++
  String.join (p.attrContains.map (fun ac =>
    "[" ++ ac.1 ++ "*=" ++ "\"" ++ ac.2 ++ "\"" ++ "]"))

/-- Rendering of a whole selector (parts joined by single spaces). -/
def selectorStr (ps : List Part) : String :=
  String.intercalate " " (ps.map partStr)

/-- `SelectorGenerator._calculate_specificity`: the number of ID tokens
(`#[\w-]+`) plus class tokens (`\.[\w-]+`) plus tag tokens
(`\b[a-zA-Z]+\b`) in the selector string. -/
def calculateSpecificity (selector : String) : Nat :=
  countMarked '#' selector.toList + countMarked '.' selector.toList +
    countAlphaRuns selector.toList

/-- `self.job_related_keywords`. -/
def jobRelatedKeywords : List String :=
  ["job", "position", "career", "work", "employment", "vacancy",
   "posting", "opening", "opportunity", "role", "listing"]

/-- `self.company_keywords`. -/
def companyKeywords : List String :=
  ["company", "employer", "organization", "corp", "inc",
   "firm", "enterprise", "business"]

/-- `self.location_keywords`. -/
def locationKeywords : List String :=
  ["location", "city", "address", "place", "region",
   "area", "district", "zone"]

/-- `self.time_keywords`. -/
def timeKeywords : List String :=
  ["time", "date", "published", "posted", "created",
   "updated", "ago", "recent"]

/-- Python `str.lower`, character by character. -/
def toLowerStr (s : String) : String :=
  String.mk (s.toList.map Char.toLower)

/-- `SelectorGenerator._is_semantically_relevant`. -/
def isSemanticallyRelevant (selector : String) (selectorType : String) : Bool :=
  let lower := toLowerStr selector
  if selectorType = "jobList" || selectorType = "jobItem" ||
     selectorType = "jobTitle" || selectorType = "jobDescription" then
    jobRelatedKeywords.any (fun k => strContains lower k)
  else if selectorType = "companyName" then
    companyKeywords.any (fun k => strContains lower k)
  else if selectorType = "location" then
    locationKeywords.any (fun k => strContains lower k)
  else if selectorType = "publishedAt" then
    timeKeywords.any (fun k => strContains lower k)
  else
    false

/-- `SelectorGenerator._evaluate_selector_quality`: weighted sum of
existence (0.4), cardinality fit (0.3), specificity (0.2) and semantic
relevance (0.1), capped at 1.0. -/
def evaluateSelectorQuality (selectorType : String) (ps : List Part)
    (elements : List Nat) : ℚ :=
  let existence : ℚ := if elements.isEmpty then 0 else 4/10
  let n := elements.length
  let cardinality : ℚ :=
    if selectorType = "jobList" then
      if 1 ≤ n ∧ n ≤ 2 then 3/10 else if n ≤ 5 then 2/10 else 0
    else if selectorType = "jobItem" then
      if 5 ≤ n ∧ n ≤ 100 then 3/10 else if 1 ≤ n ∧ n ≤ 200 then 2/10 else 0
    else if selectorType = "nextPage" then
      if n = 1 then 3/10 else if n ≤ 3 then 2/10 else 0
    else
      if 0 < n then 3/10 else 0
  let s := calculateSpecificity (selectorStr ps)
  let specificity : ℚ := if 2 ≤ s ∧ s ≤ 4 then 2/10 else if s ≤ 6 then 1/10 else 0
  let semantic : ℚ := if isSemanticallyRelevant (selectorStr ps) selectorType then 1/10 else 0
  min (existence + cardinality + specificity + semantic) 1

/-- First move of `SelectorGenerator._improve_selector`: a selector with
more than four compound parts is simplified to its last part alone when
the new match count is nonzero and at most double the original. -/
def improveMove1 (ps : List Part) (elements : List Nat) (doc : Doc) :
    Option (List Part) :=
  if 4 < ps.length then
    match ps.getLast? with
    | some lastPart =>
        if !(select doc [lastPart]).isEmpty &&
            (select doc [lastPart]).length ≤ elements.length * 2 then
          some [lastPart]
        else none
    | none => none
  else none

/-- Second move of `SelectorGenerator._improve_selector`: a selector
matching more than 50 elements is scoped under the first matched
element's parent classes when that narrows the nonzero match count. -/
def improveMove2 (ps : List Part) (elements : List Nat) (doc : Doc) :
    Option (List Part) :=
  if 50 < elements.length then
    match elements.head? with
    | some firstIdx =>
      match (List.get? doc firstIdx).bind Elem.parent with
      | some parentIdx =>
        match List.get? doc parentIdx with
        | some parentEl =>
          if !parentEl.classes.isEmpty then
            if !(select doc ({ classes := parentEl.classes : Part } :: ps)).isEmpty &&
                (select doc ({ classes := parentEl.classes : Part } :: ps)).length
                  < elements.length then
              some ({ classes := parentEl.classes : Part } :: ps)
            else none
          else none
        | none => none
      | none => none
    | none => none
  else none

/-- `SelectorGenerator._improve_selector`: move 1, falling through to
move 2 when move 1 does not return. -/
def improveSelector (ps : List Part) (elements : List Nat) (doc : Doc) :
    Option (List Part) :=
  match improveMove1 ps elements doc with
  | some simplified => some simplified
  | none => improveMove2 ps elements doc

/-- Python truthiness of a selector string (`if not ai_selector`). -/
def locIsEmpty : Locator → Bool
  | .parts ps => ps.isEmpty
  | .invalid _ => false

/-- The score of one candidate inside `_select_best_candidate`. -/
def candidateScore (elementCount specificity : Nat) : ℚ :=
  (if 1 ≤ elementCount ∧ elementCount ≤ 50 then 5/10 else 0) +
  (if 1 ≤ specificity ∧ specificity ≤ 4 then 3/10 else 0) +
  (if 0 < elementCount then 2/10 else 0)

/-- `SelectorGenerator._select_best_candidate`: the max-scoring matching
candidate, ties broken by first-seen order; candidates whose evaluation
raises are skipped. -/
def selectBestCandidate (candidates : List Locator) (doc : Doc) : Option Locator :=
  (candidates.foldl (fun acc cand =>
    match cand with
    | .invalid _ => acc
    | .parts ps =>
      let elements := select doc ps
      if elements.isEmpty then acc
      else
        let score := candidateScore elements.length
          (calculateSpecificity (selectorStr ps))
        if acc.2 < score then (some cand, score) else acc)
    ((none : Option Locator), (0 : ℚ))).1

/-- `SelectorGenerator._optimize_selector`: keeps an AI selector that
passes the 0.7 quality threshold, otherwise attempts `_improve_selector`
and falls back to the original selector; a selector matching nothing is
replaced by the best detected-element candidate; an evaluation error
returns the original selector. -/
def optimizeSelector (selectorType : String) (aiSelector : Locator) (doc : Doc)
    (detectedElements : List (String × List Locator)) : Option Locator :=
  if locIsEmpty aiSelector then none
  else
    match aiSelector with
    | .invalid _ => some aiSelector
    | .parts ps =>
      let elements := select doc ps
      if !elements.isEmpty then
        let qualityScore := evaluateSelectorQuality selectorType ps elements
        if 7/10 ≤ qualityScore then some aiSelector
        else
          match improveSelector ps elements doc with
          | some optimized => some (.parts optimized)
          | none => some aiSelector
      else
        selectBestCandidate
          ((detectedElements.lookup (selectorType ++ "_elements")).getD []) doc

/-- The literal fallback catalog `fallback_patterns` of
`_generate_fallback_selector`, with each pattern string parsed into the
selector grammar. -/
def fallbackPatterns (selectorType : String) : List (List Part) :=
  if selectorType = "jobList" then
    [[{ classes := ["jobs-list"] }], [{ classes := ["job-list"] }],
     [{ classes := ["positions"] }], [{ classes := ["careers"] }],
     [{ classes := ["search-results"] }], [{ classes := ["listings"] }],
     [{ attrContains := [("class", "job")] }],
     [{ tag := some "ul", attrContains := [("class", "job")] }],
     [{ tag := some "div", attrContains := [("class", "list")] }]]
  else if selectorType = "jobItem" then
    [[{ classes := ["job-item"] }], [{ classes := ["job-card"] }],
     [{ classes := ["position"] }], [{ classes := ["listing"] }],
     [{ classes := ["job-posting"] }],
     [{ attrContains := [("class", "job-item")] }],
     [{ tag := some "li", attrContains := [("class", "job")] }],
     [{ tag := some "div", attrContains := [("class", "item")] }],
     [{ classes := ["result-item"] }]]
  else if selectorType = "jobTitle" then
    [[{ classes := ["job-title"] }], [{ classes := ["position-title"] }],
     [{ classes := ["title"] }], [{ tag := some "h1" }], [{ tag := some "h2" }],
     [{ tag := some "h3" }],
     [{ tag := some "a", attrContains := [("class", "title")] }],
     [{ attrContains := [("class", "job-title")] }], [{ classes := ["name"] }]]
  else if selectorType = "jobLink" then
    [[{ tag := some "a", attrContains := [("href", "/job/")] }],
     [{ tag := some "a", attrContains := [("href", "/position/")] }],
     [{ tag := some "a", attrContains := [("href", "/career/")] }],
     [{ classes := ["job-link"] }], [{ classes := ["title-link"] }],
     [{ tag := some "a", classes := ["title"] }],
     [{ tag := some "h3" }, { tag := some "a" }],
     [{ tag := some "h2" }, { tag := some "a" }]]
  else if selectorType = "companyName" then
    [[{ classes := ["company"] }], [{ classes := ["employer"] }],
     [{ classes := ["company-name"] }], [{ classes := ["organization"] }],
     [{ attrContains := [("class", "company")] }],
     [{ attrContains := [("class", "employer")] }], [{ classes := ["firm"] }]]
  else if selectorType = "publishedAt" then
    [[{ classes := ["date"] }], [{ classes := ["time"] }],
     [{ classes := ["published"] }], [{ classes := ["posted"] }],
     [{ classes := ["created"] }], [{ attrContains := [("class", "date")] }],
     [{ attrContains := [("class", "time")] }], [{ classes := ["ago"] }]]
  else if selectorType = "location" then
    [[{ classes := ["location"] }], [{ classes := ["city"] }],
     [{ classes := ["address"] }], [{ classes := ["place"] }],
     [{ attrContains := [("class", "location")] }],
     [{ attrContains := [("class", "city")] }], [{ classes := ["region"] }]]
  else if selectorType = "jobDescription" then
    [[{ classes := ["description"] }], [{ classes := ["summary"] }],
     [{ classes := ["content"] }], [{ classes := ["details"] }],
     [{ attrContains := [("class", "description")] }],
     [{ attrContains := [("class", "summary")] }], [{ tag := some "p" }]]
  else if selectorType = "nextPage" then
    [[{ classes := ["next"] }], [{ classes := ["next-page"] }],
     [{ attrContains := [("aria-label", "next")] }],
     [{ attrContains := [("aria-label", "下一页")] }],
     [{ tag := some "a", attrContains := [("href", "page=")] }],
     [{ classes := ["pagination"] }, { classes := ["next"] }],
     [{ tag := some "button", attrContains := [("class", "next")] }]]
  else []

/-- `SelectorGenerator._generate_fallback_selector`: the first pattern of
the per-role ordered list that matches at least one element. -/
def generateFallbackSelector (selectorType : String) (doc : Doc) : Option Locator :=
  ((fallbackPatterns selectorType).find? (fun ps => !(select doc ps).isEmpty)).map
    Locator.parts

/-- The per-key body of `SelectorGenerator.generate_selectors`: use the
optimized AI selector when truthy, otherwise the heuristic fallback. -/
def selectorForKey (key : String) (aiSelector : Locator) (doc : Doc)
    (detectedElements : List (String × List Locator)) : Option Locator :=
  match optimizeSelector key aiSelector doc detectedElements with
  | some optimized =>
      if locIsEmpty optimized then generateFallbackSelector key doc
      else some optimized
  | none => generateFallbackSelector key doc

/-- One improvement pass as seen through `_optimize_selector`: the
improved selector when a move applies, the unchanged selector
otherwise. -/
def improveStep (doc : Doc) (ps : List Part) : List Part :=
  (improveSelector ps (select doc ps) doc).getD ps

/-- Selector part matching the `it` item elements of the example pages. -/
def partIt : Part := { tag := some "it" }

/-- Selector part `.w2`. -/
def partW2 : Part := { classes := ["w2"] }

/-- Example page for the optimizer: two nested `.w2` wrappers, one item
inside the inner wrapper, 50 items directly inside the outer wrapper and
one stray item: 52 `it` elements in total, 51 of them below a `.w2`. -/
def nestedItemsDoc : Doc :=
  [ { tag := "div", classes := ["w2"] },
    { tag := "div", classes := ["w2"], parent := some 0 },
    { tag := "it", parent := some 1 } ] ++
  List.replicate 50 { tag := "it", parent := some 0 : Elem } ++
  [ { tag := "it" } ]

/-- AI-suggested selector part `.a-b-c-d-e-f` (specificity 7, no
semantic keyword). -/
def partAbcdef : Part := { classes := ["a-b-c-d-e-f"] }

/-- Selector part `.job-item` (first fallback pattern for `jobItem`). -/
def partJobItem : Part := { classes := ["job-item"] }

/-- Example page with one element matching the low-quality AI selector
and one `.job-item` element the fallback catalog would find. -/
def lowQualityDoc : Doc :=
  [ { tag := "z", classes := ["a-b-c-d-e-f"] },
    { tag := "li", classes := ["job-item"] } ]

/-! ## `Job.calculate_quality_score` (`app/models/job.py`) and
`CrawlingService.save_crawl_results` (`app/services/crawling_service.py`) -/

/-- Python `str.strip()`: whitespace removed from both ends. -/
def pyStrip (s : String) : String :=
  String.mk (((s.toList.dropWhile Char.isWhitespace).reverse.dropWhile
    Char.isWhitespace).reverse)

/-- One extracted record (the `job_data` dictionary built by
`CrawlerAgent._extract_single_job`); a missing field is the empty
string. -/
structure JobData where
  title : String := ""
  company : String := ""
  location : String := ""
  publishedAt : String := ""
  description : String := ""
  link : String := ""
deriving Repr, DecidableEq

/-- The fields of the `Job` model row that
`Job.calculate_quality_score` reads. `publishedAt` holds the parsed
date (`None` when parsing failed). -/
structure JobRecord where
  title : String := ""
  companyName : String := ""
  jobLink : String := ""
  location : String := ""
  publishedAt : Option String := none
  jobDescription : String := ""
  salaryRange : String := ""
  jobType : String := ""
  experienceLevel : String := ""
  skillsRequired : List String := []
deriving Repr, DecidableEq

/-- Truthiness plus non-blank test of one required string field inside
`calculate_quality_score` (`if value: if isinstance(value, str) and
len(value.strip()) > 0`). -/
def strFieldScore (v : String) (w : ℚ) : ℚ :=
  if v ≠ "" then (if 0 < (pyStrip v).length then w else 0) else 0

/-- Bonus-field test of `calculate_quality_score`: a non-empty list or a
truthy, non-blank string counts one. -/
def bonusFieldCount (j : JobRecord) : Nat :=
  (if j.salaryRange ≠ "" ∧ 0 < (pyStrip j.salaryRange).length then 1 else 0) +
  (if j.jobType ≠ "" ∧ 0 < (pyStrip j.jobType).length then 1 else 0) +
  (if j.experienceLevel ≠ "" ∧ 0 < (pyStrip j.experienceLevel).length then 1 else 0) +
  (if ¬j.skillsRequired.isEmpty then 1 else 0)

/-- `Job.calculate_quality_score`: weighted completeness of the six
required fields (weights 0.3/0.2/0.1/0.2/0.1/0.1, total weight 1.0)
plus a bonus of (filled bonus fields)/4 × 0.1, capped at 1.0. -/
def calculateQualityScore (j : JobRecord) : ℚ :=
  let score :=
    strFieldScore j.title (3/10) +
    strFieldScore j.companyName (2/10) +
    strFieldScore j.location (1/10) +
    strFieldScore j.jobDescription (2/10) +
    (match j.publishedAt with | some _ => 1/10 | none => 0) +
    strFieldScore j.jobLink (1/10)
  let totalWeight : ℚ := 3/10 + 2/10 + 1/10 + 2/10 + 1/10 + 1/10
  let bonusScore : ℚ := (bonusFieldCount j : ℚ) / 4 * (1/10)
  min (score / totalWeight + bonusScore) 1

/-- `CrawlingService._parse_date`: an empty (falsy) date string parses
to `None`; otherwise the stripped string is handed to the `strptime`
format loop, modelled as a parameter (external datetime library). -/
def parseDate (strptime : String → Option String) (s : String) : Option String :=
  if s = "" then none else strptime (pyStrip s)

/-- The `Job(...)` row built for one extracted record inside
`CrawlingService.save_crawl_results`. -/
def mkJob (strptime : String → Option String) (jd : JobData) : JobRecord :=
  { title := jd.title, companyName := jd.company, jobLink := jd.link,
    location := jd.location, jobDescription := jd.description,
    publishedAt := parseDate strptime jd.publishedAt }

/-- The acceptance test of `save_crawl_results`
(`job.data_quality_score >= 0.5`). -/
def qualityGate (q : ℚ) : Bool := 1/2 ≤ q

/-- The records `save_crawl_results` actually adds to the session: those
whose quality score passes the 0.5 gate. -/
def savedJobs (strptime : String → Option String) (jobs : List JobData) :
    List JobRecord :=
  (jobs.map (mkJob strptime)).filter (fun j => qualityGate (calculateQualityScore j))

/-! ## `BrowserController.crawl_jobs` (`app/core/browser/browser_controller.py`) -/

/-- What one iteration of the crawl loop observes for the current URL:
the page fails to load, extraction fails, or extraction succeeds with a
list of records and an optional next-page URL (the outcome of
`load_page` / `extract_jobs` / `find_next_page` combined). -/
inductive PageOutcome where
  | loadFail (msg : String)
  | extractFail (msg : String)
  | extractOk (jobs : List JobData) (next : Option String)
deriving Repr, DecidableEq

/-- The mutable locals of the `while` loop of `crawl_jobs`. -/
structure LoopSt where
  pagesCrawled : Nat
  allJobs : List JobData
  errors : List String
  currentUrl : Option String
deriving Repr, DecidableEq

/-- The `while pages_crawled < max_pages and current_url` loop of
`crawl_jobs`: fuel is `max_pages - pages_crawled` (the loop body either
breaks or increments `pages_crawled`).  A load or extraction failure
appends an error and breaks; a successful extraction extends the job
list, increments the page counter and follows the next-page URL after
the politeness delay, or breaks when there is none. -/
def crawlLoop (env : String → PageOutcome) : Nat → LoopSt → LoopSt
  | 0, st => st
  | fuel + 1, st =>
    match st.currentUrl with
    | none => st
    | some url =>
      match env url with
      | .loadFail msg =>
          { st with errors := st.errors ++ ["page load failed: " ++ msg] }
      | .extractFail msg =>
          { st with errors := st.errors ++ ["extraction failed: " ++ msg] }
      | .extractOk jobs next =>
          let st' := { st with allJobs := st.allJobs ++ jobs,
                               pagesCrawled := st.pagesCrawled + 1 }
          match next with
          | some nextUrl => crawlLoop env fuel { st' with currentUrl := some nextUrl }
          | none => st'

/-- The `CrawlResult` dataclass (fields relevant to the claims). -/
structure CrawlResult where
  success : Bool
  jobs : List JobData
  pagesCrawled : Nat
  errors : List String
  nextPageUrl : Option String
  hasNextPage : Bool
deriving Repr, DecidableEq

/-- `BrowserController.crawl_jobs`.  `outerExc` models an exception
raised outside the per-page `try` (before the loop body runs, e.g. when
constructing the crawler agent); the per-page `try/except` is part of
`crawlLoop`'s failure outcomes. -/
def crawlJobs (env : String → PageOutcome) (url : String) (maxPages : Nat)
    (outerExc : Option String) : CrawlResult :=
  match outerExc with
  | some msg =>
      { success := false, jobs := [], pagesCrawled := 0,
        errors := ["crawl exception: " ++ msg],
        nextPageUrl := none, hasNextPage := false }
  | none =>
      let st := crawlLoop env maxPages
        { pagesCrawled := 0, allJobs := [], errors := [], currentUrl := some url }
      { success := decide (0 < st.allJobs.length),
        jobs := st.allJobs,
        pagesCrawled := st.pagesCrawled,
        errors := st.errors,
        nextPageUrl := if st.pagesCrawled < maxPages then st.currentUrl else none,
        hasNextPage := st.currentUrl.isSome && decide (st.pagesCrawled < maxPages) }

/-- Observer: the sequence of page outcomes the loop visits from a given
URL with the given fuel. -/
def crawlTrace (env : String → PageOutcome) : Nat → Option String → List PageOutcome
  | 0, _ => []
  | _ + 1, none => []
  | fuel + 1, some url =>
    match env url with
    | .loadFail msg => [.loadFail msg]
    | .extractFail msg => [.extractFail msg]
    | .extractOk jobs next =>
        .extractOk jobs next ::
          (match next with
           | some nextUrl => crawlTrace env fuel (some nextUrl)
           | none => [])

/-- Whether a page outcome is a successful extraction. -/
def isExtractOk : PageOutcome → Bool
  | .extractOk _ _ => true
  | _ => false

/-- A record whose only filled field is the company name (quality score
0.2, below the 0.5 acceptance gate). -/
def companyOnlyJob : JobData := { company := "Acme" }

/-- Example crawl environment: page `a` extracts one low-quality record
and points to page `b`, every other page fails to load. -/
def envW : String → PageOutcome := fun url =>
  if url = "a" then .extractOk [companyOnlyJob] (some "b")
  else .loadFail "boom"

/-! ## `CrawlerAgent.extract_jobs` (`app/core/browser/crawler_agent.py`) -/

/-- A DOM element as seen by field extraction: its inner text and an
optional `href` attribute. -/
structure FieldEl where
  text : String := ""
  href : Option String := none
deriving Repr, DecidableEq

/-- A job-item element: `query_selector` inside the item maps a selector
to its first match. -/
abbrev Item := List (String × FieldEl)

/-- A job-list element: `query_selector_all` inside the list. -/
structure ListEl where
  items : String → List Item

/-- A loaded page: `query_selector_all` at page level. -/
structure PageQ where
  query : String → List ListEl

/-- `CrawlerAgent._extract_field_value`: an absent element yields `""`;
the `link` field reads the `href` attribute (`href or ""`), every other
field reads the stripped inner text (`text.strip() if text else ""`). -/
def extractFieldValue (item : Item) (selector : String) (fieldType : String) : String :=
  match item.lookup selector with
  | none => ""
  | some el =>
      if fieldType = "link" then el.href.getD ""
      else if el.text ≠ "" then pyStrip el.text else ""

/-- Python `str.startswith`. -/
def pyStartsWith (s pre : String) : Bool :=
  pre.toList.isPrefixOf s.toList

/-- `CrawlerAgent._normalize_url`: an empty URL stays empty, an absolute
URL is returned as is, a relative URL is joined onto the base URL
(`urllib.parse.urljoin`, the external collaborator, passed as a
parameter). -/
def normalizeUrl (urljoin : String → String → String) (url baseUrl : String) : String :=
  if url = "" then ""
  else if pyStartsWith url "http://" || pyStartsWith url "https://" then url
  else urljoin baseUrl url

/-- The value stored in `job_data` for one field: nothing is extracted
when the role has no configured selector. -/
def itemFieldValue (item : Item) (selectors : List (String × String))
    (selectorKey fieldType : String) : String :=
  let sel := (selectors.lookup selectorKey).getD ""
  if sel = "" then "" else extractFieldValue item sel fieldType

/-- `CrawlerAgent._extract_single_job`: extracts the six mapped fields,
returns `None` (skip) when both the extracted title and the extracted
company are empty, and otherwise normalizes a non-empty link and yields
the record. -/
def extractSingleJob (urljoin : String → String → String) (item : Item)
    (selectors : List (String × String)) (pageUrl : String) : Option JobData :=
  let jd : JobData :=
    { title := itemFieldValue item selectors "jobTitle" "title",
      company := itemFieldValue item selectors "companyName" "company",
      location := itemFieldValue item selectors "location" "location",
      publishedAt := itemFieldValue item selectors "publishedAt" "published_at",
      description := itemFieldValue item selectors "jobDescription" "description",
      link := itemFieldValue item selectors "jobLink" "link" }
  if jd.title = "" ∧ jd.company = "" then none
  else some { jd with
    link := if jd.link ≠ "" then normalizeUrl urljoin jd.link pageUrl else jd.link }

/-- The result dictionary of `extract_jobs`. -/
structure ExtractResult where
  success : Bool
  error : Option String
  jobs : List JobData
deriving Repr, DecidableEq

/-- `CrawlerAgent.extract_jobs`: missing selectors or an empty job-list
query fail with an error; otherwise every job item of every job list is
extracted and the skipped (`None`) items contribute nothing. -/
def extractJobs (urljoin : String → String → String) (page : PageQ)
    (selectors : List (String × String)) (pageUrl : String) : ExtractResult :=
  let jobListSel := (selectors.lookup "jobList").getD ""
  if jobListSel = "" then
    { success := false, error := some "missing job list selector", jobs := [] }
  else
    let jobListElements := page.query jobListSel
    if jobListElements.isEmpty then
      { success := false, error := some ("job list not found: " ++ jobListSel), jobs := [] }
    else
      let jobItemSel := (selectors.lookup "jobItem").getD ""
      if jobItemSel = "" then
        { success := false, error := some "missing job item selector", jobs := [] }
      else
        { success := true, error := none,
          jobs := (jobListElements.map (fun jl =>
            (jl.items jobItemSel).filterMap
              (fun it => extractSingleJob urljoin it selectors pageUrl))).flatten }

/-- Example page for extraction: one job list with one blank item and
one item carrying a title. -/
def pageW : PageQ :=
  { query := fun s =>
      if s = ".list" then
        [{ items := fun s' =>
             if s' = ".item" then [[], [(".t", { text := "Engineer" })]] else [] }]
      else [] }

/-- The selector configuration used with `pageW`. -/
def selectorsW : List (String × String) :=
  [("jobList", ".list"), ("jobItem", ".item"), ("jobTitle", ".t")]

/-! ## `AntiDetectionManager` (`app/core/browser/anti_detection.py`) -/

/-- `self.user_agents`. -/
def userAgents : List String :=
  ["Mozilla/5.0 (Windows NT 10.0; Win64; x64) AppleWebKit/537.36 (KHTML, like Gecko) Chrome/120.0.0.0 Safari/537.36",
   "Mozilla/5.0 (Macintosh; Intel Mac OS X 10_15_7) AppleWebKit/537.36 (KHTML, like Gecko) Chrome/120.0.0.0 Safari/537.36",
   "Mozilla/5.0 (X11; Linux x86_64) AppleWebKit/537.36 (KHTML, like Gecko) Chrome/120.0.0.0 Safari/537.36",
   "Mozilla/5.0 (Windows NT 10.0; Win64; x64; rv:121.0) Gecko/20100101 Firefox/121.0",
   "Mozilla/5.0 (Macintosh; Intel Mac OS X 10.15; rv:121.0) Gecko/20100101 Firefox/121.0"]

/-- `self.viewport_sizes` (width × height). -/
def viewportSizes : List (Nat × Nat) :=
  [(1920, 1080), (1366, 768), (1536, 864), (1440, 900), (1600, 900)]

/-- One behaviour profile: delay ranges in seconds. -/
structure BehaviorPattern where
  scrollDelay : ℚ × ℚ
  clickDelay : ℚ × ℚ
  typeDelay : ℚ × ℚ
deriving DecidableEq

/-- `self.behavior_patterns`. -/
def behaviorPatterns : List BehaviorPattern :=
  [{ scrollDelay := (1, 3), clickDelay := (1/2, 3/2), typeDelay := (1/10, 3/10) },
   { scrollDelay := (2, 4), clickDelay := (1, 2), typeDelay := (1/5, 2/5) },
   { scrollDelay := (3/2, 5/2), clickDelay := (4/5, 9/5), typeDelay := (3/20, 7/20) }]

/-- The timezone pool of `apply_stealth_measures`. -/
def timezonePool : List String :=
  ["Asia/Shanghai", "Asia/Beijing", "Asia/Hong_Kong"]

/-- The geolocation pool of `apply_stealth_measures`
(latitude × longitude). -/
def geoLocations : List (ℚ × ℚ) :=
  [(399042/10000, 1164074/10000),
   (312304/10000, 1214737/10000),
   (223193/10000, 1141694/10000)]

/-- The randomness supply: a stream of draws. -/
abbrev Rng := List Nat

/-- Consume one random draw. -/
def draw : Rng → Nat × Rng
  | [] => (0, [])
  | r :: rs => (r, rs)

/-- `random.choice` driven by one draw. -/
def randomChoice {α : Type} (xs : List α) (d : α) (r : Nat) : α :=
  xs.getD (r % xs.length) d

/-- The stealth fingerprint applied to a page. -/
structure Fingerprint where
  userAgent : Option String
  viewport : Nat × Nat
  timezone : String
  geolocation : ℚ × ℚ

/-- `AntiDetectionManager.apply_stealth_measures`: draws a fresh random
user agent (when rotation is enabled), viewport, timezone and
geolocation on every call. -/
def applyStealthMeasures (uaRotation : Bool) (rng : Rng) : Fingerprint × Rng :=
  let (ua, rng1) :=
    if uaRotation then
      let (r, rng') := draw rng
      (some (randomChoice userAgents "" r), rng')
    else (none, rng)
  let (rv, rng2) := draw rng1
  let (rt, rng3) := draw rng2
  let (rl, rng4) := draw rng3
  ({ userAgent := ua,
     viewport := randomChoice viewportSizes (0, 0) rv,
     timezone := randomChoice timezonePool "" rt,
     geolocation := randomChoice geoLocations (0, 0) rl }, rng4)

/-- The manager state: only `current_behavior` persists. -/
structure AntiDetectionManager where
  currentBehavior : BehaviorPattern

/-- Fallback behaviour value for `randomChoice`. -/
def defaultBehavior : BehaviorPattern :=
  { scrollDelay := (0, 0), clickDelay := (0, 0), typeDelay := (0, 0) }

/-- `AntiDetectionManager.__init__`: `current_behavior` is drawn once at
construction. -/
def initManager (rng : Rng) : AntiDetectionManager × Rng :=
  let (r, rng') := draw rng
  ({ currentBehavior := randomChoice behaviorPatterns defaultBehavior r }, rng')

/-- A session of `n` page loads: each `load_page` call applies
`apply_stealth_measures` (a fresh fingerprint) and then simulates
behaviour with the manager's `current_behavior`, which no call
modifies. -/
def loadPages (mgr : AntiDetectionManager) (uaRotation : Bool) :
    Rng → Nat → List (Fingerprint × BehaviorPattern) × Rng
  | rng, 0 => ([], rng)
  | rng, n + 1 =>
    let (fp, rng') := applyStealthMeasures uaRotation rng
    let (rest, rng'') := loadPages mgr uaRotation rng' n
    ((fp, mgr.currentBehavior) :: rest, rng'')

/-- Random stream making the first two page loads draw different user
agents. -/
def rngW : Rng := [0, 0, 0, 0, 1, 0, 0, 0]

end CrawlerAssistant

namespace CrawlerAssistant

lemma validateEntry_valid_eq (doc : Doc) (kv : String × Locator) :
    (validateEntry doc kv).2.valid = roleMatches doc kv := by
  unfold validateEntry roleMatches
  cases selectLoc doc kv.2 <;> simp

/-- **C1**: for every set of role-to-locator mappings and every parsed
document, `validate_selectors` returns an overall score equal to the
number of roles whose locator matches at least one element divided by
the number of roles present (0 when the set is empty); a locator whose
evaluation raises counts as matching nothing. -/
theorem validate_overallScore_eq (sels : List (String × Locator)) (doc : Doc) :
    (validateSelectors sels doc).overallScore =
      if sels.length = 0 then 0
      else (sels.countP (roleMatches doc) : ℚ) / (sels.length : ℚ) := by
  unfold validateSelectors
  simp only [List.countP_map]
  have hcnt : List.countP ((fun r : String × SelResult => r.2.valid) ∘ validateEntry doc) sels
      = List.countP (roleMatches doc) sels := by
    apply List.countP_congr
    intro kv _
    simp [Function.comp, validateEntry_valid_eq]
  rw [hcnt]
  rcases sels with _ | ⟨a, l⟩ <;> simp

lemma improveMove1_some_shape (ps : List Part) (elements : List Nat) (doc : Doc)
    (t : List Part) (h : improveMove1 ps elements doc = some t) :
    4 < ps.length ∧ (∃ lp, ps.getLast? = some lp ∧ t = [lp]) ∧
      select doc t ≠ [] ∧ (select doc t).length ≤ elements.length * 2 := by
  unfold improveMove1 at h
  split at h
  next hlen =>
    split at h
    next lp hlast =>
      split at h
      next hcond =>
        injection h with h
        subst h
        simp only [Bool.and_eq_true, Bool.not_eq_true', decide_eq_true_eq] at hcond
        refine ⟨hlen, ⟨lp, hlast, rfl⟩, ?_, hcond.2⟩
        simpa using hcond.1
      next => cases h
    next => cases h
  next => cases h

lemma improveMove2_some_shape (ps : List Part) (elements : List Nat) (doc : Doc)
    (t : List Part) (h : improveMove2 ps elements doc = some t) :
    50 < elements.length ∧
      (∃ pcls, pcls ≠ [] ∧ t = ({ classes := pcls } : Part) :: ps) ∧
      select doc t ≠ [] ∧ (select doc t).length < elements.length := by
  unfold improveMove2 at h
  split at h
  next hgt =>
    split at h
    next firstIdx hhead =>
      split at h
      next parentIdx hpar =>
        split at h
        next parentEl hpe =>
          split at h
          next hcls =>
            split at h
            next hcond =>
              injection h with h
              subst h
              simp only [Bool.and_eq_true, Bool.not_eq_true', decide_eq_true_eq] at hcond
              refine ⟨hgt, ⟨parentEl.classes, ?_, rfl⟩, ?_, hcond.2⟩
              · simpa using hcls
              · simpa using hcond.1
            next => cases h
          next => cases h
        next => cases h
      next => cases h
    next => cases h
  next => cases h

lemma improveSelector_some_shape (ps : List Part) (elements : List Nat) (doc : Doc)
    (t : List Part) (h : improveSelector ps elements doc = some t) :
    (4 < ps.length ∧ (∃ lp, ps.getLast? = some lp ∧ t = [lp]) ∧
       select doc t ≠ [] ∧ (select doc t).length ≤ elements.length * 2)
    ∨ (50 < elements.length ∧
       (∃ pcls, pcls ≠ [] ∧ t = ({ classes := pcls } : Part) :: ps) ∧
       select doc t ≠ [] ∧ (select doc t).length < elements.length) := by
  unfold improveSelector at h
  split at h
  next s hs =>
    cases h
    exact Or.inl (improveMove1_some_shape ps elements doc t hs)
  next =>
    exact Or.inr (improveMove2_some_shape ps elements doc t h)

lemma lowQuality_eval : evaluateSelectorQuality "jobItem" [partAbcdef]
    (select lowQualityDoc [partAbcdef]) = 3/5 := by
  have hsel : select lowQualityDoc [partAbcdef] = [0] := by decide
  have hspec : calculateSpecificity (selectorStr [partAbcdef]) = 7 := by decide
  have hsem : isSemanticallyRelevant (selectorStr [partAbcdef]) "jobItem" = false := by decide
  have hs1 : ("jobItem" : String) ≠ "jobList" := by decide
  rw [hsel]
  simp only [evaluateSelectorQuality, hspec, hsem]
  norm_num [hs1, min_def]

lemma lowQuality_below_threshold : evaluateSelectorQuality "jobItem" [partAbcdef]
    (select lowQualityDoc [partAbcdef]) < 7/10 := by
  rw [lowQuality_eval]; norm_num

/-- **C3** (amended): for a locator that matches at least one element but
fails the 0.7 quality threshold, the optimizer applies exactly the two
bounded moves — simplifying to the last part of a more-than-four-part
selector when the new match count is nonzero and at most double, or
scoping a more-than-50-match selector under the first matched element's
parent classes when that narrows the nonzero count — and when neither
move improves the result it returns the original locator unchanged
(fallback resolution is not consulted). -/
theorem optimizer_bounded_moves (selectorType : String) (ps : List Part) (doc : Doc)
    (det : List (String × List Locator))
    (hne : ps ≠ [])
    (hmatch : select doc ps ≠ [])
    (hq : evaluateSelectorQuality selectorType ps (select doc ps) < 7/10) :
    (∀ t, improveSelector ps (select doc ps) doc = some t →
      (4 < ps.length ∧ (∃ lp, ps.getLast? = some lp ∧ t = [lp]) ∧
         select doc t ≠ [] ∧ (select doc t).length ≤ (select doc ps).length * 2)
      ∨ (50 < (select doc ps).length ∧
         (∃ pcls, pcls ≠ [] ∧ t = ({ classes := pcls } : Part) :: ps) ∧
         select doc t ≠ [] ∧ (select doc t).length < (select doc ps).length))
    ∧ (improveSelector ps (select doc ps) doc = none →
        optimizeSelector selectorType (.parts ps) doc det = some (.parts ps)) := by
  constructor
  · intro t ht
    exact improveSelector_some_shape ps (select doc ps) doc t ht
  · intro hnone
    simp only [optimizeSelector, locIsEmpty]
    rw [if_neg (by simpa using hne)]
    rw [if_pos (by simpa using hmatch)]
    rw [if_neg (not_le.mpr hq), hnone]

/-- Witness for `optimizer_bounded_moves` at the concrete low-quality
page: the hypotheses hold and the optimizer keeps `.a-b-c-d-e-f`. -/
theorem optimizer_bounded_moves_witness :
    ([partAbcdef] ≠ ([] : List Part)
      ∧ select lowQualityDoc [partAbcdef] ≠ []
      ∧ evaluateSelectorQuality "jobItem" [partAbcdef]
          (select lowQualityDoc [partAbcdef]) < 7/10)
    ∧ (improveSelector [partAbcdef] (select lowQualityDoc [partAbcdef]) lowQualityDoc = none →
        optimizeSelector "jobItem" (.parts [partAbcdef]) lowQualityDoc [] =
          some (.parts [partAbcdef])) :=
  ⟨⟨by decide, by decide, lowQuality_below_threshold⟩,
   (optimizer_bounded_moves "jobItem" [partAbcdef] lowQualityDoc []
      (by decide) (by decide) lowQuality_below_threshold).2⟩

/-- Counterexample to **C3** as stated: at this concrete page the AI
selector fails the 0.7 threshold, neither move improves it, a fallback
pattern (`.job-item`) would match — yet the system keeps the original
locator and never defers to fallback resolution. -/
theorem optimizer_no_fallback_defer_cex :
    evaluateSelectorQuality "jobItem" [partAbcdef]
        (select lowQualityDoc [partAbcdef]) < 7/10
    ∧ improveSelector [partAbcdef] (select lowQualityDoc [partAbcdef]) lowQualityDoc = none
    ∧ selectorForKey "jobItem" (.parts [partAbcdef]) lowQualityDoc [] =
        some (.parts [partAbcdef])
    ∧ generateFallbackSelector "jobItem" lowQualityDoc = some (.parts [partJobItem])
    ∧ ([partJobItem] : List Part) ≠ [partAbcdef] := by
  have hsel : select lowQualityDoc [partAbcdef] = [0] := by decide
  have himp : improveSelector [partAbcdef] [0] lowQualityDoc = none := by decide
  have hq := lowQuality_eval
  rw [hsel] at hq
  have hopt : optimizeSelector "jobItem" (.parts [partAbcdef]) lowQualityDoc [] =
      some (.parts [partAbcdef]) := by
    simp only [optimizeSelector, locIsEmpty, hsel, hq, himp]
    norm_num
  refine ⟨lowQuality_below_threshold, by rw [hsel]; exact himp, ?_, by decide, by decide⟩
  simp only [selectorForKey, hopt, locIsEmpty]
  simp

/-- Counterexample to **C4** as stated: on the nested-items page,
improving `it` yields `.w2 it`, but improving `.w2 it` does not yield
`.w2 it` again — it narrows further to `.w2 .w2 it` (the scoped selector
still matches more than 50 elements). -/
theorem improve_not_idempotent_cex :
    improveStep nestedItemsDoc [partIt] = [partW2, partIt]
    ∧ improveStep nestedItemsDoc [partW2, partIt] ≠ [partW2, partIt] := by
  constructor
  · decide
  · decide

/-- **C4** (amended): the improvement step is idempotent whenever its
output has at most four compound parts and matches at most 50 elements:
improving such an `s'` yields `s'` again (neither move fires). -/
theorem improveStep_idempotent_of_bounded (doc : Doc) (ps ps' : List Part)
    (_himp : improveStep doc ps = ps')
    (hlen : ps'.length ≤ 4)
    (hcnt : (select doc ps').length ≤ 50) :
    improveStep doc ps' = ps' := by
  unfold improveStep improveSelector improveMove1 improveMove2
  rw [if_neg (not_lt.mpr hlen), if_neg (not_lt.mpr hcnt)]
  rfl

/-- Witness for `improveStep_idempotent_of_bounded`: the low-quality
page's selector is already a fixed point within the bounds. -/
theorem improveStep_idempotent_witness :
    (improveStep lowQualityDoc [partAbcdef] = [partAbcdef]
      ∧ ([partAbcdef] : List Part).length ≤ 4
      ∧ (select lowQualityDoc [partAbcdef]).length ≤ 50)
    ∧ improveStep lowQualityDoc [partAbcdef] = [partAbcdef] :=
  ⟨⟨by decide, by decide, by decide⟩,
   improveStep_idempotent_of_bounded lowQualityDoc [partAbcdef] [partAbcdef]
     (by decide) (by decide) (by decide)⟩

end CrawlerAssistant

namespace CrawlerAssistant

lemma crawlLoop_trace (env : String → PageOutcome) (fuel : Nat) :
    ∀ st : LoopSt,
      (crawlLoop env fuel st).pagesCrawled =
        st.pagesCrawled + (crawlTrace env fuel st.currentUrl).countP isExtractOk
      ∧ (crawlTrace env fuel st.currentUrl).length ≤ fuel := by
  induction fuel with
  | zero => intro st; simp [crawlLoop, crawlTrace]
  | succ n ih =>
    intro st
    cases hcur : st.currentUrl with
    | none => simp [crawlLoop, crawlTrace, hcur]
    | some url =>
      cases henv : env url with
      | loadFail m => simp [crawlLoop, crawlTrace, hcur, henv, isExtractOk]
      | extractFail m => simp [crawlLoop, crawlTrace, hcur, henv, isExtractOk]
      | extractOk jobs next =>
        cases next with
        | none => simp [crawlLoop, crawlTrace, hcur, henv, isExtractOk]
        | some nextUrl =>
          have h := ih { st with allJobs := st.allJobs ++ jobs,
                                 pagesCrawled := st.pagesCrawled + 1,
                                 currentUrl := some nextUrl }
          simp [crawlLoop, crawlTrace, hcur, henv, List.countP_cons,
            isExtractOk] at h ⊢
          omega

/-- **C2**: for every crawl session, `pages_crawled` never exceeds the
configured `max_pages` cap; the loop visits at most `max_pages` pages
and `pages_crawled` equals the number of visited pages whose extraction
succeeded — it grows by exactly 1 per successful page and by 0 for a
page whose load or extraction fails (the loop then halts with the
counter unchanged). -/
theorem pagesCrawled_cap_and_increments (env : String → PageOutcome) (url : String)
    (maxPages : Nat) (exc : Option String) :
    (crawlJobs env url maxPages exc).pagesCrawled ≤ maxPages
    ∧ (crawlJobs env url maxPages none).pagesCrawled =
        (crawlTrace env maxPages (some url)).countP isExtractOk
    ∧ (crawlTrace env maxPages (some url)).length ≤ maxPages
    ∧ (∀ fuel st u msg, st.currentUrl = some u →
        (env u = .loadFail msg ∨ env u = .extractFail msg) →
        (crawlLoop env (fuel + 1) st).pagesCrawled = st.pagesCrawled) := by
  have hloop := crawlLoop_trace env maxPages
    { pagesCrawled := 0, allJobs := [], errors := [], currentUrl := some url }
  refine ⟨?_, ?_, hloop.2, ?_⟩
  · cases exc with
    | some m => simp [crawlJobs]
    | none =>
      simp only [crawlJobs]
      calc (crawlLoop env maxPages _).pagesCrawled
          = 0 + (crawlTrace env maxPages (some url)).countP isExtractOk := hloop.1
        _ ≤ (crawlTrace env maxPages (some url)).length := by
            simpa using List.countP_le_length _
        _ ≤ maxPages := hloop.2
  · simpa using hloop.1
  · intro fuel st u msg hcur henv
    rcases henv with h | h <;> simp [crawlLoop, hcur, h]

/-- Witness for `pagesCrawled_cap_and_increments`: a concrete failing
page leaves the counter unchanged. -/
theorem pagesCrawled_witness :
    ((⟨0, [], [], some "b"⟩ : LoopSt).currentUrl = some "b"
      ∧ (envW "b" = .loadFail "boom" ∨ envW "b" = .extractFail "boom"))
    ∧ (crawlLoop envW 1 ⟨0, [], [], some "b"⟩).pagesCrawled = 0 :=
  ⟨⟨rfl, Or.inl (by decide)⟩,
   (pagesCrawled_cap_and_increments envW "b" 1 none).2.2.2 0 ⟨0, [], [], some "b"⟩
     "b" "boom" rfl (Or.inl (by decide))⟩

/-- **C9**: every crawl result satisfies `has_next_page` ↔
`next_page_url` is non-null; a session stopped by a page-load or
extraction failure before the cap reports `has_next_page = true` with
the URL it never finished, while the outer-exception path reports
`has_next_page = false` with a null `next_page_url`. -/
theorem hasNext_iff_nextUrl (env : String → PageOutcome) (url : String)
    (maxPages : Nat) (exc : Option String) (m : String) :
    ((crawlJobs env url maxPages exc).hasNextPage =
       (crawlJobs env url maxPages exc).nextPageUrl.isSome)
    ∧ ((crawlJobs env url maxPages (some m)).hasNextPage = false
       ∧ (crawlJobs env url maxPages (some m)).nextPageUrl = none)
    ∧ (∀ n, (env url = .loadFail m ∨ env url = .extractFail m) →
        (crawlJobs env url (n + 1) none).hasNextPage = true
        ∧ (crawlJobs env url (n + 1) none).nextPageUrl = some url) := by
  refine ⟨?_, by simp [crawlJobs], ?_⟩
  · cases exc with
    | some m' => simp [crawlJobs]
    | none =>
      simp only [crawlJobs]
      by_cases h : (crawlLoop env maxPages
          { pagesCrawled := 0, allJobs := [], errors := [], currentUrl := some url }).pagesCrawled
          < maxPages
      · simp [h]
      · simp [h]
  · intro n henv
    rcases henv with h | h <;>
      simp [crawlJobs, crawlLoop, h, Nat.succ_pos]

/-- Witness for `hasNext_iff_nextUrl`: a concrete first-page load
failure under the cap keeps the unfinished URL. -/
theorem hasNext_iff_nextUrl_witness :
    (envW "b" = .loadFail "boom" ∨ envW "b" = .extractFail "boom")
    ∧ ((crawlJobs envW "b" 1 none).hasNextPage = true
       ∧ (crawlJobs envW "b" 1 none).nextPageUrl = some "b") :=
  ⟨Or.inl (by decide),
   (hasNext_iff_nextUrl envW "b" 1 none "boom").2.2 0 (Or.inl (by decide))⟩

/-- **C6** (amended): the aggregate crawl result's `success` field is
true iff the number of extracted records (`jobs`, before the quality
gate) is greater than zero — not the number of accepted records. -/
theorem crawl_success_iff_records (env : String → PageOutcome) (url : String)
    (maxPages : Nat) (exc : Option String) :
    (crawlJobs env url maxPages exc).success = true ↔
      0 < (crawlJobs env url maxPages exc).jobs.length := by
  cases exc <;> simp [crawlJobs]

/-- Counterexample to **C6** as stated: a session extracting a single
record whose quality score is 0.2 reports `success = true` although
zero records pass the 0.5 acceptance gate. -/
theorem success_without_accepted_cex :
    ¬ ((crawlJobs envW "a" 1 none).success = true ↔
       0 < (savedJobs (fun _ => none) (crawlJobs envW "a" 1 none).jobs).length) := by
  have hjobs : (crawlJobs envW "a" 1 none).jobs = [companyOnlyJob] := by decide
  have hsuc : (crawlJobs envW "a" 1 none).success = true := by decide
  have hq : calculateQualityScore (mkJob (fun _ => none) companyOnlyJob) = 1/5 := by
    have hlen : (0 : Nat) < (pyStrip "Acme").length := by decide
    simp [calculateQualityScore, mkJob, parseDate, strFieldScore, bonusFieldCount,
      companyOnlyJob, hlen]
    norm_num [min_def]
  have hsaved : savedJobs (fun _ => none) [companyOnlyJob] = [] := by
    have : qualityGate (calculateQualityScore (mkJob (fun _ => none) companyOnlyJob))
        = false := by
      rw [hq]; simp [qualityGate]; norm_num
    simp [savedJobs, this]
  intro hiff
  have h0 := hiff.mp hsuc
  rw [hjobs, hsaved] at h0
  simp at h0

/-- **C7**: a record is accepted into the session iff its quality score
passes the `>= 0.5` gate; the gate accepts exactly the scores ≥ 1/2, so
a score of exactly 0.5 is accepted and 0.499 is rejected. -/
theorem record_accepted_iff_quality (strptime : String → Option String)
    (jobs : List JobData) (j : JobRecord) :
    (j ∈ savedJobs strptime jobs ↔
      j ∈ jobs.map (mkJob strptime) ∧ (1:ℚ)/2 ≤ calculateQualityScore j)
    ∧ (∀ q : ℚ, qualityGate q = true ↔ 1/2 ≤ q)
    ∧ qualityGate (1/2) = true ∧ qualityGate (499/1000) = false := by
  refine ⟨?_, ?_, ?_, ?_⟩
  · simp [savedJobs, List.mem_filter, qualityGate]
  · intro q; simp [qualityGate]
  · simp [qualityGate]
  · simp only [qualityGate, decide_eq_false_iff_not, not_le]
    norm_num

end CrawlerAssistant

namespace CrawlerAssistant

lemma lookup_validateResults (doc : Doc) (sels : List (String × Locator))
    (key msg : String) (hnodup : (sels.map Prod.fst).Nodup)
    (hmem : (key, Locator.invalid msg) ∈ sels) :
    (sels.map (validateEntry doc)).lookup key =
      some { valid := false, count := 0, note := "selector error: " ++ msg } := by
  induction sels with
  | nil => cases hmem
  | cons hd tl ih =>
    cases hmem with
    | head =>
        simp [validateEntry, selectLoc, List.lookup]
    | tail _ hmem' =>
        have hkey : key ∈ tl.map Prod.fst :=
          List.mem_map.mpr ⟨(key, Locator.invalid msg), hmem', rfl⟩
        have hne : key ≠ hd.1 := by
          intro h
          exact (List.nodup_cons.mp hnodup).1 (h ▸ hkey)
        have hbeq : (key == hd.1) = false := beq_eq_false_iff_ne.mpr hne
        simp only [List.map_cons]
        rw [show validateEntry doc hd = (hd.1, (validateEntry doc hd).2) from by
          cases hd with | mk a b => cases hb : selectLoc doc b <;> simp [validateEntry, hb]]
        simp [List.lookup, hbeq]
        exact ih (List.nodup_cons.mp hnodup).2 hmem'

/-- **C8**: a locator with invalid syntax never propagates an exception:
validation reports it as invalid with count 0 and an explicit error
note, and the optimizer's scoring path returns the original locator
instead of raising. -/
theorem invalid_locator_caught (sels : List (String × Locator)) (doc : Doc)
    (key msg : String)
    (hnodup : (sels.map Prod.fst).Nodup)
    (hmem : (key, Locator.invalid msg) ∈ sels) :
    (validateSelectors sels doc).selectorResults.lookup key =
      some { valid := false, count := 0, note := "selector error: " ++ msg }
    ∧ (∀ selectorType det, optimizeSelector selectorType (Locator.invalid msg) doc det =
        some (Locator.invalid msg)) := by
  refine ⟨?_, ?_⟩
  · simpa [validateSelectors] using lookup_validateResults doc sels key msg hnodup hmem
  · intro selectorType det
    simp [optimizeSelector, locIsEmpty]

/-- Witness for `invalid_locator_caught` on a one-entry selector set. -/
theorem invalid_locator_caught_witness :
    ((([("title", Locator.invalid "bad")] : List (String × Locator)).map Prod.fst).Nodup
      ∧ ("title", Locator.invalid "bad") ∈ [("title", Locator.invalid "bad")])
    ∧ (validateSelectors [("title", Locator.invalid "bad")] []).selectorResults.lookup "title" =
        some { valid := false, count := 0, note := "selector error: " ++ "bad" } :=
  ⟨⟨by decide, by decide⟩,
   (invalid_locator_caught [("title", Locator.invalid "bad")] [] "title" "bad"
     (by decide) (by decide)).1⟩

lemma length_filterMap_eq_countP {α β : Type} (f : α → Option β) (l : List α) :
    (l.filterMap f).length = l.countP (fun a => (f a).isSome) := by
  induction l with
  | nil => simp
  | cons a l ih =>
    cases h : f a <;> simp [List.filterMap_cons, h, List.countP_cons, ih]

/-- **C10**: an item whose extracted title and extracted company are
both empty is silently skipped — it contributes no record and no error,
extraction succeeds and continues with the remaining items — while any
item with at least one of the two non-empty yields a record: the job
count equals the number of items passing the title-or-company test. -/
theorem blank_item_skipped (urljoin : String → String → String)
    (selectors : List (String × String)) (pageUrl : String) :
    (∀ item : Item,
      extractSingleJob urljoin item selectors pageUrl = none ↔
        itemFieldValue item selectors "jobTitle" "title" = "" ∧
        itemFieldValue item selectors "companyName" "company" = "")
    ∧ (∀ (page : PageQ) (jls jis : String),
        (selectors.lookup "jobList").getD "" = jls → jls ≠ "" →
        ¬(page.query jls).isEmpty → (selectors.lookup "jobItem").getD "" = jis → jis ≠ "" →
        extractJobs urljoin page selectors pageUrl =
          { success := true, error := none,
            jobs := ((page.query jls).map (fun jl =>
              (jl.items jis).filterMap
                (fun it => extractSingleJob urljoin it selectors pageUrl))).flatten }
        ∧ (extractJobs urljoin page selectors pageUrl).jobs.length =
            ((page.query jls).map (fun jl =>
              (jl.items jis).countP (fun it =>
                !(itemFieldValue it selectors "jobTitle" "title" = "" ∧
                  itemFieldValue it selectors "companyName" "company" = "")))).sum) := by
  have hsingle : ∀ item : Item,
      extractSingleJob urljoin item selectors pageUrl = none ↔
        itemFieldValue item selectors "jobTitle" "title" = "" ∧
        itemFieldValue item selectors "companyName" "company" = "" := by
    intro item
    by_cases h : itemFieldValue item selectors "jobTitle" "title" = "" ∧
        itemFieldValue item selectors "companyName" "company" = ""
    · simp [extractSingleJob, h]
    · simp [extractSingleJob, h]
  refine ⟨hsingle, ?_⟩
  intro page jls jis hjls hjlsne hq hjis hjisne
  have hjobs : extractJobs urljoin page selectors pageUrl =
      { success := true, error := none,
        jobs := ((page.query jls).map (fun jl =>
          (jl.items jis).filterMap
            (fun it => extractSingleJob urljoin it selectors pageUrl))).flatten } := by
    simp only [extractJobs, hjls, hjis]
    rw [if_neg hjlsne, if_neg (by simpa using hq), if_neg hjisne]
  refine ⟨hjobs, ?_⟩
  rw [hjobs]
  simp only [List.length_flatten, List.map_map]
  apply congrArg
  apply List.map_congr_left
  intro jl _
  rw [Function.comp_apply, length_filterMap_eq_countP]
  apply List.countP_congr
  intro it _
  rcases hres : extractSingleJob urljoin it selectors pageUrl with _ | v
  · have := (hsingle it).mp hres
    simp [this]
  · have hnot : ¬ (itemFieldValue it selectors "jobTitle" "title" = "" ∧
        itemFieldValue it selectors "companyName" "company" = "") := by
      intro hcontra
      rw [(hsingle it).mpr hcontra] at hres
      cases hres
    simp [hnot]

/-- Witness for `blank_item_skipped` at a page with one blank item and
one titled item. -/
theorem blank_item_skipped_witness :
    ((selectorsW.lookup "jobList").getD "" = ".list"
      ∧ (".list" : String) ≠ ""
      ∧ ¬(pageW.query ".list").isEmpty
      ∧ (selectorsW.lookup "jobItem").getD "" = ".item"
      ∧ (".item" : String) ≠ "")
    ∧ (extractJobs (fun b u => b ++ u) pageW selectorsW "http://x" =
        { success := true, error := none,
          jobs := ((pageW.query ".list").map (fun jl =>
            (jl.items ".item").filterMap
              (fun it => extractSingleJob (fun b u => b ++ u) it selectorsW "http://x"))).flatten }
      ∧ (extractJobs (fun b u => b ++ u) pageW selectorsW "http://x").jobs.length =
          ((pageW.query ".list").map (fun jl =>
            (jl.items ".item").countP (fun it =>
              !(itemFieldValue it selectorsW "jobTitle" "title" = "" ∧
                itemFieldValue it selectorsW "companyName" "company" = "")))).sum) :=
  ⟨⟨by decide, by decide, by decide, by decide, by decide⟩,
   (blank_item_skipped (fun b u => b ++ u) selectorsW "http://x").2 pageW ".list" ".item"
     (by decide) (by decide) (by decide) (by decide) (by decide)⟩

/-- **C5** (amended): the behaviour pattern is chosen once when the
manager is constructed and every page load of the session uses that same
pattern — no load changes it. -/
theorem behavior_fixed_per_session (mgr : AntiDetectionManager) (uaRotation : Bool)
    (rng : Rng) (n : Nat) :
    (loadPages mgr uaRotation rng n).1.map Prod.snd =
      List.replicate n mgr.currentBehavior := by
  induction n generalizing rng with
  | zero => simp [loadPages]
  | succ k ih => simp [loadPages, ih, List.replicate_succ]

/-- Counterexample to **C5** as stated: `apply_stealth_measures` draws a
fresh random user agent on every `load_page` call, so two page loads of
the same session can carry different user agents — the fingerprint is
not held for the session's lifetime. -/
theorem fingerprint_rerandomized_cex :
    ((loadPages ⟨defaultBehavior⟩ true rngW 2).1.map (fun e => e.1.userAgent)) =
      [some (userAgents.getD 0 ""), some (userAgents.getD 1 "")]
    ∧ userAgents.getD 0 "" ≠ userAgents.getD 1 "" := by
  constructor
  · rfl
  · decide

end CrawlerAssistant
